import Mathlib

/-!
Shallow embedding of the business-rule layer of the alx-polly polling application.

Sources embedded:
- `src/app/lib/actions/poll-actions.ts` (createPoll, getPollById, submitVote,
  deletePoll, updatePoll)
- `src/lib/supabase/middleware.ts` (updateSession route guard)

Modelling conventions:
- The Supabase store is a `DB` value (a list of poll rows, a list of vote rows,
  and a counter for generated poll ids); each server action is a pure function
  from its inputs and a `DB` to a result `Option String × DB` where the first
  component is the `error` field of the returned object (`none` = success),
  exactly as the TypeScript actions return `{ error }`.
- `formData.get("question")` is `Option String` (`null` ⇒ `none`);
  `formData.getAll("options")` is `List String`. JavaScript `filter(Boolean)`
  on strings removes exactly the empty string, embedded as
  `filter (fun s => s != "")`.
- The authenticated user from `supabase.auth.getUser()` is `Option User`; the
  truthiness of `user.app_metadata?.admin` is the Boolean field `admin`.
- PostgREST `.single()` returns the row when the filtered result has exactly
  one row, and otherwise an error whose code is `PGRST116` ("JSON object
  requested, multiple (or no) rows returned"); `dbSingle` embeds this.
  Where the TypeScript surfaces `error.message` of a failed `.single()` we
  surface the code string `"PGRST116"`; claims only inspect that it is an
  error, not its text.
- Timestamps (`created_at`, `updated_at`) and `revalidatePath` cache
  invalidation are outside the model: no claim below depends on them.
-/

namespace AlxPolly

/-- An authenticated identity: opaque id plus the truthiness of
`app_metadata?.admin`. -/
structure User where
  id : String
  admin : Bool
  deriving DecidableEq, Repr

/-- A row of the `polls` table (timestamps omitted, see module docstring). -/
structure Poll where
  id : String
  user_id : String
  question : String
  options : List String
  deriving DecidableEq, Repr

/-- A row of the `votes` table (generated id and timestamp omitted;
`option_index` is a JavaScript number that may be negative, hence `Int`). -/
structure Vote where
  poll_id : String
  user_id : String
  option_index : Int
  deriving DecidableEq, Repr

/-- The external store: the two tables and the counter generating poll ids. -/
structure DB where
  polls : List Poll
  votes : List Vote
  nextId : Nat
  deriving DecidableEq, Repr

/-- Result of a PostgREST `.single()` call: the row, or an error code. -/
inductive SingleRes (α : Type) where
  | ok (a : α)
  | err (code : String)
  deriving DecidableEq, Repr

/-- PostgREST `.single()` on a filtered query: exactly one row succeeds, zero or
several rows fail with code `PGRST116`. -/
def dbSingle {α : Type} : List α → SingleRes α
  | [a] => .ok a
  | _ => .err "PGRST116"

/-- The rows of `polls` matching `.eq("id", id)`. -/
def pollsWith (db : DB) (id : String) : List Poll :=
  db.polls.filter (fun p => p.id == id)

/-- The rows of `votes` matching `.eq("poll_id", pollId).eq("user_id", userId)`. -/
def votesFor (db : DB) (pollId userId : String) : List Vote :=
  db.votes.filter (fun v => v.poll_id == pollId && v.user_id == userId)

/-- JavaScript `String.prototype.trim`: strip leading and trailing whitespace.
Embedded structurally over the character list (rather than via `String.trim`,
which does not reduce inside the kernel) so that concrete instances evaluate. -/
def jsTrim (s : String) : String :=
  ⟨((s.data.dropWhile Char.isWhitespace).reverse.dropWhile Char.isWhitespace).reverse⟩

/-- The per-option validation loop shared verbatim by `createPoll`
(poll-actions.ts lines 28–35) and `updatePoll` (lines 240–247): first failing
option decides the message. -/
def validateOptionContents : List String → Option String
  | [] => none
  | o :: rest =>
    if (jsTrim o).length == 0 then some "All options must be non-empty."
    else if o.length > 200 then some "Each option must be 200 characters or less."
    else validateOptionContents rest

/-- The validation block shared verbatim by `createPoll` (lines 14–35) and
`updatePoll` (lines 226–247), for a present (non-null) question string.
JavaScript `!question` is the `q == ""` disjunct. -/
def validateQO (q : String) (options : List String) : Option String :=
  if q == "" || (jsTrim q).length == 0 then some "Please provide a valid question."
  else if options.length < 2 then some "Please provide at least two options."
  else if options.length > 10 then some "Maximum 10 options allowed."
  else if q.length > 500 then some "Question must be 500 characters or less."
  else validateOptionContents options

/-- The full shared validation block including the `null` question case
(`!question` is true for `null`). -/
def validatePollInput (question : Option String) (options : List String) : Option String :=
  match question with
  | none => some "Please provide a valid question."
  | some q => validateQO q options

/-- All error strings the shared validation block can produce. -/
def validationMessages : List String :=
  ["Please provide a valid question.",
   "Please provide at least two options.",
   "Maximum 10 options allowed.",
   "Question must be 500 characters or less.",
   "All options must be non-empty.",
   "Each option must be 200 characters or less."]

/-- Action `createPoll` (poll-actions.ts lines 7–63): filter falsy options, validate,
then authenticate, then insert the trimmed poll owned by the acting user. -/
def createPoll (question : Option String) (rawOptions : List String)
    (user : Option User) (db : DB) : Option String × DB :=
  let options := rawOptions.filter (fun s => s != "")
  match question with
  | none => (some "Please provide a valid question.", db)
  | some q =>
    match validateQO q options with
    | some e => (some e, db)
    | none =>
      match user with
      | none => (some "You must be logged in to create a poll.", db)
      | some u =>
        (none, { db with
          polls := db.polls ++ [{ id := toString db.nextId, user_id := u.id,
                                  question := jsTrim q,
                                  options := options.map (fun s => jsTrim s) }],
          nextId := db.nextId + 1 })

/-- Action `getPollById` (lines 96–120): unrestricted read; permission flags derived
from the viewer (`user?.id === data.user_id`, `... || user?.app_metadata?.admin`). -/
def getPollById (id : String) (user : Option User) (db : DB) :
    Option (Poll × Bool × Bool) × Option String :=
  match dbSingle (pollsWith db id) with
  | .err code => (none, some code)
  | .ok data =>
    let canEdit := match user with
      | some u => u.id == data.user_id
      | none => false
    let canDelete := match user with
      | some u => u.id == data.user_id || u.admin
      | none => false
    (some (data, canEdit, canDelete), none)

/-- Action `submitVote` (lines 123–178): require login, reject when a vote row for
(poll, user) already exists, require the poll to exist, validate the option
index, then insert the vote row. -/
def submitVote (pollId : String) (optionIndex : Int) (user : Option User)
    (db : DB) : Option String × DB :=
  match user with
  | none => (some "You must be logged in to vote.", db)
  | some u =>
    match dbSingle (votesFor db pollId u.id) with
    | .ok _ => (some "You have already voted on this poll.", db)
    | .err code =>
      if code != "PGRST116" then (some "Error checking existing votes.", db)
      else
        match dbSingle (pollsWith db pollId) with
        | .err _ => (some "Poll not found.", db)
        | .ok poll =>
          if optionIndex < 0 || (poll.options.length : Int) ≤ optionIndex then
            (some "Invalid option selected.", db)
          else
            (none, { db with
              votes := db.votes ++ [{ poll_id := pollId, user_id := u.id,
                                      option_index := optionIndex }] })

/-- Action `deletePoll` (lines 181–216): require login, look the poll up, allow only
the owner or an admin, then delete every row with that id. -/
def deletePoll (id : String) (user : Option User) (db : DB) :
    Option String × DB :=
  match user with
  | none => (some "You must be logged in to delete a poll.", db)
  | some u =>
    match dbSingle (pollsWith db id) with
    | .err _ => (some "Poll not found.", db)
    | .ok poll =>
      if poll.user_id != u.id && !u.admin then
        (some "You can only delete your own polls.", db)
      else
        (none, { db with polls := db.polls.filter (fun p => !(p.id == id)) })

/-- Action `updatePoll` (lines 219–292): filter falsy options, validate, authenticate,
look the poll up, allow only the owner (no admin override), then overwrite the
trimmed question and options on every row with that id. -/
def updatePoll (pollId : String) (question : Option String)
    (rawOptions : List String) (user : Option User) (db : DB) :
    Option String × DB :=
  let options := rawOptions.filter (fun s => s != "")
  match question with
  | none => (some "Please provide a valid question.", db)
  | some q =>
    match validateQO q options with
    | some e => (some e, db)
    | none =>
      match user with
      | none => (some "You must be logged in to update a poll.", db)
      | some u =>
        match dbSingle (pollsWith db pollId) with
        | .err _ => (some "Poll not found.", db)
        | .ok existingPoll =>
          if existingPoll.user_id != u.id then
            (some "You can only update your own polls.", db)
          else
            (none, { db with polls := db.polls.map (fun p =>
              if p.id == pollId then
                { p with question := jsTrim q,
                         options := options.map (fun s => jsTrim s) }
              else p) })

/-- Outcome of the route guard: pass the request through, or redirect to a
pathname carrying query parameters set by the guard. -/
inductive GuardResult where
  | proceed
  | redirect (pathname : String) (params : List (String × String))
  deriving DecidableEq, Repr

/-- JavaScript `String.prototype.startsWith`, embedded structurally over the
character list (rather than via `String.startsWith`, which does not reduce
inside the kernel) so that concrete instances evaluate. -/
def pathStartsWith (s pre : String) : Bool :=
  pre.data.isPrefixOf s.data

/-- The general authentication fall-through of `updateSession`
(middleware.ts lines 55–68): unauthenticated requests outside the public
prefixes are redirected to `/login`. -/
def generalAuthCheck (path : String) (user : Option User) : GuardResult :=
  if user.isNone
      && !(pathStartsWith path "/login") && !(pathStartsWith path "/register")
      && !(pathStartsWith path "/auth") && !(pathStartsWith path "/_next")
      && !(pathStartsWith path "/api") && path != "/" then
    .redirect "/login" []
  else .proceed

/-- Guard `updateSession` (middleware.ts lines 4–71) as a function of the request
pathname and the authenticated user: the `/admin` block (lines 35–52) runs
first, then the request falls through to the general check. -/
def updateSession (path : String) (user : Option User) : GuardResult :=
  if pathStartsWith path "/admin" then
    match user with
    | none => .redirect "/login" [("redirect", "/admin")]
    | some u =>
      if !u.admin then .redirect "/polls" [("error", "unauthorized")]
      else generalAuthCheck path (some u)
  else generalAuthCheck path user

/-- When the shared option-content loop accepts, every option is non-blank
after trimming and at most 200 characters long. -/
theorem validateOptionContents_none_sound (opts : List String)
    (h : validateOptionContents opts = none) :
    ∀ o ∈ opts, (jsTrim o).length ≠ 0 ∧ o.length ≤ 200 := by
  induction opts with
  | nil => intro o hm; cases hm
  | cons a rest ih =>
    rw [validateOptionContents] at h
    split at h
    · cases h
    · split at h
      · cases h
      · intro o hm
        rcases List.mem_cons.mp hm with rfl | hm
        · refine ⟨?_, ?_⟩
          · next hc _ => simpa using hc
          · next _ hl => simpa using hl
        · exact ih h o hm

/-- Every error the option-content loop produces is a validation message. -/
theorem validateOptionContents_some_mem (opts : List String) (e : String)
    (h : validateOptionContents opts = some e) : e ∈ validationMessages := by
  induction opts with
  | nil => cases h
  | cons a rest ih =>
    rw [validateOptionContents] at h
    split at h
    · cases h; decide
    · split at h
      · cases h; decide
      · exact ih h

/-- When the shared validation block accepts, the question and the option list
satisfy every rule it checks. -/
theorem validateQO_none_sound (q : String) (opts : List String)
    (h : validateQO q opts = none) :
    (jsTrim q).length ≠ 0 ∧ 2 ≤ opts.length ∧ opts.length ≤ 10 ∧
      q.length ≤ 500 ∧ validateOptionContents opts = none := by
  rw [validateQO] at h
  split at h
  · cases h
  · split at h
    · cases h
    · split at h
      · cases h
      · split at h
        · cases h
        · next hq hlo hhi hql =>
          refine ⟨?_, by omega, by omega, by omega, h⟩
          intro habs
          exact hq (by simp [habs])

/-- Every error the shared validation block produces is a validation message. -/
theorem validateQO_some_mem (q : String) (opts : List String) (e : String)
    (h : validateQO q opts = some e) : e ∈ validationMessages := by
  rw [validateQO] at h
  split at h
  · cases h; decide
  · split at h
    · cases h; decide
    · split at h
      · cases h; decide
      · split at h
        · cases h; decide
        · exact validateOptionContents_some_mem opts e h

/-- Filtering out empty strings is idempotent. -/
theorem filter_ne_idem (l : List String) :
    (l.filter (fun s => s != "")).filter (fun s => s != "")
      = l.filter (fun s => s != "") := by
  induction l with
  | nil => rfl
  | cons a rest ih =>
    by_cases ha : a = ""
    · simp [ha, ih]
    · simp [List.filter_cons, ha, ih]

/-- Viewer-is-owner predicate used by the claims about derived view flags. -/
def isOwner (viewer : Option User) (p : Poll) : Bool :=
  match viewer with
  | some u => u.id == p.user_id
  | none => false

/-- Viewer-carries-the-admin-flag predicate. -/
def isAdminViewer (viewer : Option User) : Bool :=
  match viewer with
  | some u => u.admin
  | none => false

/-- C6 counterexample: a submitted list of 11 entries, one of them the empty
string, is accepted by `createPoll` (the claim says any list of more than 10
entries is rejected). -/
theorem createPoll_eleven_entry_list_accepted :
    ("" :: List.replicate 10 "o").length = 11 ∧
    (createPoll (some "Q") ("" :: List.replicate 10 "o")
      (some ⟨"u1", false⟩) ⟨[], [], 0⟩).1 = none := by
  constructor
  · rfl
  · rfl

/-- C6 (amended): when the submitted options, after the `filter(Boolean)` drop
of falsy entries, number fewer than 2 or more than 10, both `createPoll` and
`updatePoll` reject with a validation message and leave the store unchanged. -/
theorem create_update_reject_bad_filtered_count (q : Option String)
    (raw : List String) (user : Option User) (db : DB) (pollId : String)
    (h : (raw.filter (fun s => s != "")).length < 2 ∨
         10 < (raw.filter (fun s => s != "")).length) :
    (∃ e, createPoll q raw user db = (some e, db) ∧ e ∈ validationMessages) ∧
    (∃ e, updatePoll pollId q raw user db = (some e, db) ∧ e ∈ validationMessages) := by
  cases q with
  | none =>
    exact ⟨⟨_, rfl, by decide⟩, ⟨_, rfl, by decide⟩⟩
  | some s =>
    cases hv : validateQO s (raw.filter (fun t => t != "")) with
    | some e =>
      refine ⟨⟨e, ?_, validateQO_some_mem _ _ _ hv⟩,
              ⟨e, ?_, validateQO_some_mem _ _ _ hv⟩⟩
      · simp [createPoll, hv]
      · simp [updatePoll, hv]
    | none =>
      have hs := validateQO_none_sound _ _ hv
      omega

/-- C6 witness: `["a"]` has fewer than 2 surviving options and is rejected. -/
theorem create_update_reject_bad_filtered_count_witness :
    ((["a"].filter (fun s => s != "")).length < 2 ∨
      10 < (["a"].filter (fun s => s != "")).length) ∧
    ((∃ e, createPoll (some "Q") ["a"] none ⟨[], [], 0⟩ = (some e, ⟨[], [], 0⟩) ∧
        e ∈ validationMessages) ∧
     (∃ e, updatePoll "p" (some "Q") ["a"] none ⟨[], [], 0⟩ = (some e, ⟨[], [], 0⟩) ∧
        e ∈ validationMessages)) :=
  ⟨by decide,
   create_update_reject_bad_filtered_count (some "Q") ["a"] none ⟨[], [], 0⟩ "p"
     (by decide)⟩

/-- C7 counterexample: a submitted list containing the empty string (which is
blank after trimming) is accepted by `createPoll`, because `filter(Boolean)`
silently drops it before validation. -/
theorem createPoll_blank_option_accepted :
    ("" ∈ ["a", "b", ""] ∧ (jsTrim "").length = 0) ∧
    (createPoll (some "Q") ["a", "b", ""]
      (some ⟨"u1", false⟩) ⟨[], [], 0⟩).1 = none := by
  refine ⟨⟨by decide, rfl⟩, rfl⟩

/-- C7 (amended): when the submitted options contain a truthy (non-empty)
string that is blank after trimming, or any string longer than 200 characters,
both `createPoll` and `updatePoll` reject with a validation message and leave
the store unchanged; empty-string entries are instead silently dropped. -/
theorem create_update_reject_bad_option_content (q : Option String)
    (raw : List String) (user : Option User) (db : DB) (pollId : String)
    (h : ∃ o ∈ raw, (o ≠ "" ∧ (jsTrim o).length = 0) ∨ 200 < o.length) :
    (∃ e, createPoll q raw user db = (some e, db) ∧ e ∈ validationMessages) ∧
    (∃ e, updatePoll pollId q raw user db = (some e, db) ∧ e ∈ validationMessages) := by
  cases q with
  | none =>
    exact ⟨⟨_, rfl, by decide⟩, ⟨_, rfl, by decide⟩⟩
  | some s =>
    cases hv : validateQO s (raw.filter (fun t => t != "")) with
    | some e =>
      refine ⟨⟨e, ?_, validateQO_some_mem _ _ _ hv⟩,
              ⟨e, ?_, validateQO_some_mem _ _ _ hv⟩⟩
      · simp [createPoll, hv]
      · simp [updatePoll, hv]
    | none =>
      exfalso
      obtain ⟨o, ho, hbad⟩ := h
      have hne : o ≠ "" := by
        rcases hbad with ⟨h1, _⟩ | h1
        · exact h1
        · intro habs
          rw [habs] at h1
          exact absurd h1 (by decide)
      have hmem : o ∈ raw.filter (fun t => t != "") := by
        simp [List.mem_filter, ho, hne]
      have hc := validateOptionContents_none_sound _
        (validateQO_none_sound _ _ hv).2.2.2.2 o hmem
      rcases hbad with ⟨_, h1⟩ | h1
      · exact hc.1 h1
      · omega

/-- C7 witness: `[" ", "b"]` contains a non-empty but blank-after-trim option
and is rejected. -/
theorem create_update_reject_bad_option_content_witness :
    (∃ o ∈ [" ", "b"], (o ≠ "" ∧ (jsTrim o).length = 0) ∨ 200 < o.length) ∧
    ((∃ e, createPoll (some "Q") [" ", "b"] none ⟨[], [], 0⟩ = (some e, ⟨[], [], 0⟩) ∧
        e ∈ validationMessages) ∧
     (∃ e, updatePoll "p" (some "Q") [" ", "b"] none ⟨[], [], 0⟩ = (some e, ⟨[], [], 0⟩) ∧
        e ∈ validationMessages)) :=
  ⟨⟨" ", by decide, Or.inl (by decide)⟩,
   create_update_reject_bad_option_content (some "Q") [" ", "b"] none ⟨[], [], 0⟩ "p"
     ⟨" ", by decide, Or.inl (by decide)⟩⟩

/-- Every validation message differs from both login-required messages. -/
theorem validationMessages_not_auth (e : String) (h : e ∈ validationMessages) :
    e ≠ "You must be logged in to create a poll." ∧
    e ≠ "You must be logged in to update a poll." := by
  simp only [validationMessages, List.mem_cons, List.not_mem_nil, or_false] at h
  rcases h with rfl | rfl | rfl | rfl | rfl | rfl <;> exact ⟨by decide, by decide⟩

/-- C9: the shared validation block runs before the authentication check in
both `createPoll` and `updatePoll`: whenever validation fails on the filtered
options, an unauthenticated caller receives that validation message (and the
store is unchanged), never the login-required message. -/
theorem validation_precedes_auth (q : Option String) (raw : List String)
    (db : DB) (pollId : String) (e : String)
    (h : validatePollInput q (raw.filter (fun s => s != "")) = some e) :
    createPoll q raw none db = (some e, db) ∧
    updatePoll pollId q raw none db = (some e, db) ∧
    e ≠ "You must be logged in to create a poll." ∧
    e ≠ "You must be logged in to update a poll." := by
  have hmem : e ∈ validationMessages := by
    cases q with
    | none =>
      rw [validatePollInput] at h
      cases h
      decide
    | some s =>
      rw [validatePollInput] at h
      exact validateQO_some_mem _ _ _ h
  have hauth := validationMessages_not_auth e hmem
  refine ⟨?_, ?_, hauth.1, hauth.2⟩
  · cases q with
    | none => rw [validatePollInput] at h; cases h; rfl
    | some s => rw [validatePollInput] at h; simp [createPoll, h]
  · cases q with
    | none => rw [validatePollInput] at h; cases h; rfl
    | some s => rw [validatePollInput] at h; simp [updatePoll, h]

/-- C9 witness: an unauthenticated create/update with a single-option list is
answered with the option-count validation message, not the login message. -/
theorem validation_precedes_auth_witness :
    validatePollInput (some "Q") (["a"].filter (fun s => s != ""))
      = some "Please provide at least two options." ∧
    (createPoll (some "Q") ["a"] none ⟨[], [], 0⟩
        = (some "Please provide at least two options.", ⟨[], [], 0⟩) ∧
      updatePoll "p" (some "Q") ["a"] none ⟨[], [], 0⟩
        = (some "Please provide at least two options.", ⟨[], [], 0⟩) ∧
      "Please provide at least two options."
        ≠ "You must be logged in to create a poll." ∧
      "Please provide at least two options."
        ≠ "You must be logged in to update a poll.") :=
  ⟨by decide,
   validation_precedes_auth (some "Q") ["a"] ⟨[], [], 0⟩ "p"
     "Please provide at least two options." (by decide)⟩

/-- C10: both actions behave on a submitted option list exactly as on the list
with all falsy (empty-string) entries dropped, and on success the persisted
options of a created poll are the trimmed survivors of that filtering. -/
theorem options_filter_falsy_first (q : Option String) (raw : List String)
    (user : Option User) (db : DB) (pollId : String) :
    createPoll q raw user db
      = createPoll q (raw.filter (fun s => s != "")) user db ∧
    updatePoll pollId q raw user db
      = updatePoll pollId q (raw.filter (fun s => s != "")) user db ∧
    ((createPoll q raw user db).1 = none → ∀ u, user = some u →
      ∃ pl, (createPoll q raw user db).2.polls = db.polls ++ [pl] ∧
        pl.options = (raw.filter (fun s => s != "")).map (fun s => jsTrim s) ∧
        pl.user_id = u.id) := by
  refine ⟨?_, ?_, ?_⟩
  · simp only [createPoll, filter_ne_idem]
  · simp only [updatePoll, filter_ne_idem]
  · intro hok u hu
    subst hu
    cases q with
    | none => simp [createPoll] at hok
    | some s =>
      cases hv : validateQO s (raw.filter (fun t => t != "")) with
      | some e => simp [createPoll, hv] at hok
      | none =>
        refine ⟨{ id := toString db.nextId, user_id := u.id, question := jsTrim s,
                  options := (raw.filter (fun t => t != "")).map (fun t => jsTrim t) },
                ?_, rfl, rfl⟩
        simp [createPoll, hv]

/-- C10 witness: a submitted list with an empty-string entry behaves as the
filtered list, and the created poll persists only the trimmed survivors. -/
theorem options_filter_falsy_first_witness :
    createPoll (some "Q") ["a", "", " b "] (some ⟨"u1", false⟩) ⟨[], [], 0⟩
      = createPoll (some "Q") (["a", "", " b "].filter (fun s => s != ""))
          (some ⟨"u1", false⟩) ⟨[], [], 0⟩ ∧
    ((createPoll (some "Q") ["a", "", " b "] (some ⟨"u1", false⟩) ⟨[], [], 0⟩).1 = none ∧
      ∃ pl, (createPoll (some "Q") ["a", "", " b "]
              (some ⟨"u1", false⟩) ⟨[], [], 0⟩).2.polls = ([] : List Poll) ++ [pl] ∧
        pl.options = (["a", "", " b "].filter (fun s => s != "")).map (fun s => jsTrim s) ∧
        pl.user_id = "u1") :=
  ⟨(options_filter_falsy_first (some "Q") ["a", "", " b "]
      (some ⟨"u1", false⟩) ⟨[], [], 0⟩ "p").1,
   by decide,
   (options_filter_falsy_first (some "Q") ["a", "", " b "]
      (some ⟨"u1", false⟩) ⟨[], [], 0⟩ "p").2.2 (by decide) ⟨"u1", false⟩ rfl⟩

/-- C1: from a state with no vote row for (poll, user), a successful first
`submitVote` leaves exactly one vote row for that pair, and any second
`submitVote` by the same user on the same poll — for any option index —
fails with the duplicate-vote message and leaves the store unchanged. -/
theorem submitVote_no_duplicate (pollId : String) (i j : Int) (u : User) (db : DB)
    (h0 : votesFor db pollId u.id = [])
    (h1 : (submitVote pollId i (some u) db).1 = none) :
    (votesFor (submitVote pollId i (some u) db).2 pollId u.id).length = 1 ∧
    submitVote pollId j (some u) (submitVote pollId i (some u) db).2
      = (some "You have already voted on this poll.",
         (submitVote pollId i (some u) db).2) := by
  have hs : dbSingle (votesFor db pollId u.id) = SingleRes.err "PGRST116" := by
    rw [h0]
    rfl
  rcases hp : dbSingle (pollsWith db pollId) with poll | code
  · cases hb : (decide (i < 0) || decide ((poll.options.length : Int) ≤ i)) with
    | true =>
      exfalso
      simp [submitVote, hs, hp, hb] at h1
    | false =>
      have hres : submitVote pollId i (some u) db
          = (none, { db with votes := db.votes ++ [⟨pollId, u.id, i⟩] }) := by
        simp [submitVote, hs, hp, hb]
      rw [hres]
      have hv1 : votesFor { db with votes := db.votes ++ [⟨pollId, u.id, i⟩] } pollId u.id
          = [⟨pollId, u.id, i⟩] := by
        simp only [votesFor] at h0 ⊢
        simp [List.filter_append, h0]
      refine ⟨by rw [hv1]; rfl, ?_⟩
      simp [submitVote, hv1, dbSingle]
  · exfalso
    simp [submitVote, hs, hp] at h1

/-- C1 witness: a concrete first vote succeeds, leaves one row, and a second
vote by the same user is rejected as a duplicate. -/
theorem submitVote_no_duplicate_witness :
    (votesFor ⟨[⟨"p1", "o1", "Q", ["a", "b"]⟩], [], 2⟩ "p1" "v1" = [] ∧
      (submitVote "p1" 0 (some ⟨"v1", false⟩)
        ⟨[⟨"p1", "o1", "Q", ["a", "b"]⟩], [], 2⟩).1 = none) ∧
    ((votesFor (submitVote "p1" 0 (some ⟨"v1", false⟩)
        ⟨[⟨"p1", "o1", "Q", ["a", "b"]⟩], [], 2⟩).2 "p1" "v1").length = 1 ∧
      submitVote "p1" 1 (some ⟨"v1", false⟩)
          (submitVote "p1" 0 (some ⟨"v1", false⟩)
            ⟨[⟨"p1", "o1", "Q", ["a", "b"]⟩], [], 2⟩).2
        = (some "You have already voted on this poll.",
           (submitVote "p1" 0 (some ⟨"v1", false⟩)
             ⟨[⟨"p1", "o1", "Q", ["a", "b"]⟩], [], 2⟩).2)) :=
  ⟨⟨by decide, by decide⟩,
   submitVote_no_duplicate "p1" 0 1 ⟨"v1", false⟩
     ⟨[⟨"p1", "o1", "Q", ["a", "b"]⟩], [], 2⟩ (by decide) (by decide)⟩

/-- C5: for an existing poll, an authenticated user with no prior vote on it,
and an option index outside `[0, options.length)`, `submitVote` fails with the
invalid-option message and the store — in particular the votes table — is
unchanged. -/
theorem submitVote_invalid_index (pollId : String) (i : Int) (u : User)
    (p : Poll) (db : DB)
    (hp : pollsWith db pollId = [p])
    (h0 : votesFor db pollId u.id = [])
    (hi : i < 0 ∨ (p.options.length : Int) ≤ i) :
    submitVote pollId i (some u) db = (some "Invalid option selected.", db) := by
  have hs : dbSingle (votesFor db pollId u.id) = SingleRes.err "PGRST116" := by
    rw [h0]
    rfl
  have hps : dbSingle (pollsWith db pollId) = SingleRes.ok p := by rw [hp]; rfl
  have hb : (decide (i < 0) || decide ((p.options.length : Int) ≤ i)) = true := by
    rcases hi with h | h <;> simp [h]
  simp [submitVote, hs, hps, hb]

/-- C5 witness: voting index 5 on a two-option poll is rejected with the
invalid-option message and no row is inserted. -/
theorem submitVote_invalid_index_witness :
    (pollsWith ⟨[⟨"p1", "o1", "Q", ["a", "b"]⟩], [], 2⟩ "p1"
        = [⟨"p1", "o1", "Q", ["a", "b"]⟩] ∧
      votesFor ⟨[⟨"p1", "o1", "Q", ["a", "b"]⟩], [], 2⟩ "p1" "v1" = [] ∧
      ((5 : Int) < 0 ∨ (([("a" : String), "b"].length : Int) ≤ 5)) ∧
    submitVote "p1" 5 (some ⟨"v1", false⟩) ⟨[⟨"p1", "o1", "Q", ["a", "b"]⟩], [], 2⟩
      = (some "Invalid option selected.", ⟨[⟨"p1", "o1", "Q", ["a", "b"]⟩], [], 2⟩)) :=
  ⟨by decide, by decide, Or.inr (by decide),
   submitVote_invalid_index "p1" 5 ⟨"v1", false⟩ ⟨"p1", "o1", "Q", ["a", "b"]⟩
     ⟨[⟨"p1", "o1", "Q", ["a", "b"]⟩], [], 2⟩ (by decide) (by decide)
     (Or.inr (by decide))⟩

/-- C3: `updatePoll` with valid input by any acting user who is not the owner
— the admin flag makes no difference — fails with the owner-only message and
leaves the store (in particular the poll) unchanged. -/
theorem updatePoll_owner_only (pollId : String) (q : Option String)
    (raw : List String) (a : User) (p : Poll) (db : DB)
    (hp : pollsWith db pollId = [p])
    (hv : validatePollInput q (raw.filter (fun s => s != "")) = none)
    (hna : p.user_id ≠ a.id) :
    updatePoll pollId q raw (some a) db
      = (some "You can only update your own polls.", db) := by
  cases q with
  | none => rw [validatePollInput] at hv; cases hv
  | some s =>
    rw [validatePollInput] at hv
    have hps : dbSingle (pollsWith db pollId) = SingleRes.ok p := by rw [hp]; rfl
    have hne : (p.user_id != a.id) = true := by simpa using hna
    simp [updatePoll, hv, hps, hne]

/-- C3 witness: an admin who is not the owner cannot update the poll. -/
theorem updatePoll_owner_only_witness :
    (pollsWith ⟨[⟨"p1", "u1", "Q", ["a", "b"]⟩], [], 2⟩ "p1"
        = [⟨"p1", "u1", "Q", ["a", "b"]⟩] ∧
      validatePollInput (some "New?") (["x", "y"].filter (fun s => s != "")) = none ∧
      ("u1" : String) ≠ "adm") ∧
    updatePoll "p1" (some "New?") ["x", "y"] (some ⟨"adm", true⟩)
        ⟨[⟨"p1", "u1", "Q", ["a", "b"]⟩], [], 2⟩
      = (some "You can only update your own polls.",
         ⟨[⟨"p1", "u1", "Q", ["a", "b"]⟩], [], 2⟩) :=
  ⟨⟨by decide, by decide, by decide⟩,
   updatePoll_owner_only "p1" (some "New?") ["x", "y"] ⟨"adm", true⟩
     ⟨"p1", "u1", "Q", ["a", "b"]⟩ ⟨[⟨"p1", "u1", "Q", ["a", "b"]⟩], [], 2⟩
     (by decide) (by decide) (by decide)⟩

/-- C4: `deletePoll` by an authenticated actor who is neither the owner nor an
admin fails with the own-polls-only message, the store is unchanged, and the
poll is still queryable afterwards via `getPollById`. -/
theorem deletePoll_nonowner_nonadmin (id : String) (a : User) (p : Poll) (db : DB)
    (hp : pollsWith db id = [p]) (hna : p.user_id ≠ a.id) (hadm : a.admin = false) :
    deletePoll id (some a) db = (some "You can only delete your own polls.", db) ∧
    getPollById id none (deletePoll id (some a) db).2
      = (some (p, false, false), none) := by
  have hps : dbSingle (pollsWith db id) = SingleRes.ok p := by rw [hp]; rfl
  have hne : (p.user_id != a.id) = true := by simpa using hna
  have hdel : deletePoll id (some a) db
      = (some "You can only delete your own polls.", db) := by
    simp [deletePoll, hps, hne, hadm]
  refine ⟨hdel, ?_⟩
  rw [hdel]
  simp [getPollById, hps]

/-- C4 witness: a concrete non-owner, non-admin delete attempt fails and the
poll remains queryable. -/
theorem deletePoll_nonowner_nonadmin_witness :
    (pollsWith ⟨[⟨"p1", "u1", "Q", ["a", "b"]⟩], [], 2⟩ "p1"
        = [⟨"p1", "u1", "Q", ["a", "b"]⟩] ∧
      ("u1" : String) ≠ "u2" ∧ (⟨"u2", false⟩ : User).admin = false) ∧
    (deletePoll "p1" (some ⟨"u2", false⟩) ⟨[⟨"p1", "u1", "Q", ["a", "b"]⟩], [], 2⟩
        = (some "You can only delete your own polls.",
           ⟨[⟨"p1", "u1", "Q", ["a", "b"]⟩], [], 2⟩) ∧
      getPollById "p1" none
          (deletePoll "p1" (some ⟨"u2", false⟩)
            ⟨[⟨"p1", "u1", "Q", ["a", "b"]⟩], [], 2⟩).2
        = (some (⟨"p1", "u1", "Q", ["a", "b"]⟩, false, false), none)) :=
  ⟨⟨by decide, by decide, rfl⟩,
   deletePoll_nonowner_nonadmin "p1" ⟨"u2", false⟩ ⟨"p1", "u1", "Q", ["a", "b"]⟩
     ⟨[⟨"p1", "u1", "Q", ["a", "b"]⟩], [], 2⟩ (by decide) (by decide) rfl⟩

/-- C8: `getPollById` on an existing poll returns it annotated with
`canEdit` true iff the viewer is the owner and `canDelete` true iff the viewer
is the owner or carries the admin flag; with no viewer both flags are false;
on a non-existent id it returns no poll and an error. -/
theorem getPollById_flags (db : DB) (id : String) (viewer : Option User) :
    (∀ p, pollsWith db id = [p] →
      getPollById id viewer db
        = (some (p, isOwner viewer p,
                 isOwner viewer p || isAdminViewer viewer), none)) ∧
    (pollsWith db id = [] →
      getPollById id viewer db = (none, some "PGRST116")) ∧
    (viewer = none → ∀ p, pollsWith db id = [p] →
      getPollById id viewer db = (some (p, false, false), none)) := by
  refine ⟨?_, ?_, ?_⟩
  · intro p hp
    have hps : dbSingle (pollsWith db id) = SingleRes.ok p := by rw [hp]; rfl
    cases viewer with
    | none => simp [getPollById, hps, isOwner, isAdminViewer]
    | some u => simp [getPollById, hps, isOwner, isAdminViewer]
  · intro hp
    have hps : dbSingle (pollsWith db id) = SingleRes.err "PGRST116" := by rw [hp]; rfl
    simp [getPollById, hps]
  · intro hv p hp
    subst hv
    have hps : dbSingle (pollsWith db id) = SingleRes.ok p := by rw [hp]; rfl
    simp [getPollById, hps, isOwner]

/-- C8 witness: on a one-poll store, the owner gets both flags, a non-owner
admin gets only `canDelete`, an absent viewer gets neither, and a missing id
yields no poll and an error. -/
theorem getPollById_flags_witness :
    getPollById "p1" (some ⟨"u1", false⟩) ⟨[⟨"p1", "u1", "Q", ["a", "b"]⟩], [], 2⟩
        = (some (⟨"p1", "u1", "Q", ["a", "b"]⟩, true, true), none) ∧
    getPollById "p1" (some ⟨"adm", true⟩) ⟨[⟨"p1", "u1", "Q", ["a", "b"]⟩], [], 2⟩
        = (some (⟨"p1", "u1", "Q", ["a", "b"]⟩, false, true), none) ∧
    getPollById "p1" none ⟨[⟨"p1", "u1", "Q", ["a", "b"]⟩], [], 2⟩
        = (some (⟨"p1", "u1", "Q", ["a", "b"]⟩, false, false), none) ∧
    getPollById "zz" none ⟨[⟨"p1", "u1", "Q", ["a", "b"]⟩], [], 2⟩
        = (none, some "PGRST116") := by
  refine ⟨?_, ?_, ?_, ?_⟩
  · have h := (getPollById_flags ⟨[⟨"p1", "u1", "Q", ["a", "b"]⟩], [], 2⟩ "p1"
      (some ⟨"u1", false⟩)).1 ⟨"p1", "u1", "Q", ["a", "b"]⟩ (by decide)
    simpa [isOwner, isAdminViewer] using h
  · have h := (getPollById_flags ⟨[⟨"p1", "u1", "Q", ["a", "b"]⟩], [], 2⟩ "p1"
      (some ⟨"adm", true⟩)).1 ⟨"p1", "u1", "Q", ["a", "b"]⟩ (by decide)
    simpa [isOwner, isAdminViewer] using h
  · exact (getPollById_flags ⟨[⟨"p1", "u1", "Q", ["a", "b"]⟩], [], 2⟩ "p1"
      none).2.2 rfl ⟨"p1", "u1", "Q", ["a", "b"]⟩ (by decide)
  · exact (getPollById_flags ⟨[⟨"p1", "u1", "Q", ["a", "b"]⟩], [], 2⟩ "zz"
      none).2.1 (by decide)

/-- C2: on any path under the `/admin` prefix the route guard never lets the
request proceed unless the identity carries the admin flag; with no identity
it redirects to `/login` carrying a `redirect` parameter pointing back into
the admin section, and with a non-admin identity it redirects to `/polls`
with `error=unauthorized`. -/
theorem updateSession_admin_guard (path : String) (user : Option User)
    (h : pathStartsWith path "/admin" = true) :
    (user = none →
      updateSession path user
        = .redirect "/login" [("redirect", "/admin")]) ∧
    (∀ u, user = some u → u.admin = false →
      updateSession path user
        = .redirect "/polls" [("error", "unauthorized")]) ∧
    (updateSession path user = .proceed →
      ∃ u, user = some u ∧ u.admin = true) := by
  refine ⟨?_, ?_, ?_⟩
  · intro hu
    subst hu
    simp [updateSession, h]
  · intro u hu ha
    subst hu
    simp [updateSession, h, ha]
  · intro hpr
    cases user with
    | none => simp [updateSession, h] at hpr
    | some u =>
      cases hadm : u.admin with
      | false => simp [updateSession, h, hadm] at hpr
      | true => exact ⟨u, rfl, hadm⟩

/-- C2 witness: on the concrete path `/admin`, an anonymous request is sent to
login with the redirect parameter, a non-admin identity is sent to `/polls`
with the error indicator, and an admin identity proceeds. -/
theorem updateSession_admin_guard_witness :
    (pathStartsWith "/admin" "/admin" = true) ∧
    (updateSession "/admin" none
        = .redirect "/login" [("redirect", "/admin")] ∧
      updateSession "/admin" (some ⟨"u1", false⟩)
        = .redirect "/polls" [("error", "unauthorized")] ∧
      updateSession "/admin" (some ⟨"adm", true⟩) = .proceed) :=
  ⟨by decide,
   (updateSession_admin_guard "/admin" none (by decide)).1 rfl,
   (updateSession_admin_guard "/admin" (some ⟨"u1", false⟩) (by decide)).2.1
     ⟨"u1", false⟩ rfl rfl,
   by decide⟩

end AlxPolly
